import Mathlib

/-!
Verification development for the `openaccess-wikidata` sync module
(`OpenAccessWikiData._sync_wikidata_artwork` and its helpers).

The Python module maps one museum artwork JSON record to a set of Wikidata
claims, looks the artwork up by accession number through a SPARQL query, and
either creates a new remote item or reconciles an existing one by adding the
claims whose (property, value) signature is missing.

Python strings are modelled as lists of characters (`PyStr`), so slicing,
stripping and single-character replacement match Python semantics directly.
Python `None`/absent-key values are modelled with `Option`; Python truthiness
of an optional value is made explicit at each use site.  The external
`pywikibot` client is modelled by its observable effects: a `Write` list
(entity creations, label/description edits, claim additions that reach the
remote service).  `addClaim` on a claim whose target was never set, or was set
to `None`, fails client-side with `AttributeError` before any remote call is
made (the source's own failure message at line 431 attributes this to "a null
image response field"), so such an attempt contributes no `Write`.
Human-readable log strings accumulated in `output` are abstracted to `Msg`
tags, and the `time.sleep(10)` delay has no observable effect in this model.
-/

namespace OAW

/-- A Python string, modelled as its list of characters. -/
abbrev PyStr := List Char

/-- Whitespace as recognised by Python's `str.strip` family (ASCII subset). -/
def isPySpace (c : Char) : Bool :=
  c = ' ' || c = '\t' || c = '\n' || c = '\r' || c = '\x0b' || c = '\x0c'

/-- Python `str.lstrip()`. -/
def pyLStrip (s : PyStr) : PyStr := s.dropWhile isPySpace

/-- Python `str.rstrip()`. -/
def pyRStrip (s : PyStr) : PyStr := (s.reverse.dropWhile isPySpace).reverse

/-- Python `str.rstrip().lstrip()` as applied to the title at line 242. -/
def pyStrip (s : PyStr) : PyStr := pyLStrip (pyRStrip s)

/-- Python `str.replace(old, new)` for single-character `old` and `new`. -/
def pyReplaceChar (old new : Char) (s : PyStr) : PyStr :=
  s.map fun c => if c = old then new else c

/-- Python `str.lower()` (ASCII letters; the type vocabulary is ASCII). -/
def pyLower (s : PyStr) : PyStr := s.map Char.toLower

/-- One entry of the record's `creators` list; `description` is `None` or a
string (`none` also covers an absent key for truthiness purposes). -/
structure Creator where
  description : Option PyStr
deriving DecidableEq

/-- Python truthiness of `author['description']` (line 277). -/
def creatorTruthy (c : Creator) : Bool :=
  match c.description with
  | none => false
  | some d => !d.isEmpty

/-- The record's `images` object; only `images['print']['url']` is read
(line 378), and that url may be `null`. -/
structure Images where
  printUrl : Option PyStr
deriving DecidableEq

/-- The input artwork JSON record.  `accession_number = none` models the
`accession_number` key being absent (the `KeyError` case of line 230);
`images = none` models a missing/null/empty `images` value (all falsy for
`artwork.get('images')`). -/
structure ArtworkRecord where
  accession_number : Option PyStr
  title : PyStr
  url : PyStr
  creation_date_earliest : Option Int
  creation_date_latest : Option Int
  creators : List Creator
  share_license_status : String
  type_ : String
  images : Option Images
deriving DecidableEq

/-- The retrieval date (`pywikibot.WbTime(year, month, day)`, line 240). -/
structure DateYMD where
  y : Nat
  m : Nat
  d : Nat
deriving DecidableEq

/-- A claim target value as set through `setTarget`. -/
inductive ClaimValue where
  /-- An `ItemPage` target, identified by its Qid. -/
  | qitem (q : String)
  /-- A plain string target. -/
  | vstr (s : PyStr)
  /-- A `WbMonolingualText` target. -/
  | mono (text : PyStr) (lang : String)
  /-- A `WbTime(year=...)` target. -/
  | timeYear (year : Int)
  /-- A `WbTime(year, month, day)` target. -/
  | dateYMD (dt : DateYMD)
  /-- A target that was set to Python `None`. -/
  | vnone
deriving DecidableEq

/-- The `mainsnak` of a claim in its JSON form: property id plus value.
This is exactly the signature the reconciler compares (lines 470-492),
after `clm.pop('id', None)`. -/
structure Snak where
  property : String
  value : ClaimValue
deriving DecidableEq

/-- A `pywikibot.Claim` with its target, qualifiers and sources set. -/
structure Claim where
  mainsnak : Snak
  qualifiers : List Snak
  sources : List Snak
deriving DecidableEq

/-- An entry of the `entities['type']` lookup table (lines 299-368): the
values are either a plain string Qid (possibly empty) or a one-entry nested
dict such as `{"P2079": "Q929254"}`. -/
inductive TypeEntry where
  /-- A plain string value. -/
  | s (v : String)
  /-- A nested one-entry dict value `{p: v}`. -/
  | d (p v : String)
deriving DecidableEq

/-- The fixed `entities['type']` table, transcribed from lines 300-367. -/
def entitiesType : List (String × TypeEntry) :=
  [("Amulets", .s "Q131557"),
   ("Apparatus", .s "Q39546"),
   ("Arms and Armor", .s "Q598227"),
   ("Basketry", .s "Q201097"),
   ("Book Binding", .s "Q1125338"),
   ("Bound Volume", .s "Q571"),
   ("Calligraphy", .s "Q22669850"),
   ("Carpet", .s "Q163446"),
   ("Ceramic", .s "Q13464614"),
   ("Coins", .s "Q41207"),
   ("Cosmetic Objects", .s "Q223557"),
   ("Drawing", .s "Q93184"),
   ("Embroidery", .s "Q18281"),
   ("Enamel", .s "Q79496108"),
   ("Forgery", .s "Q29541662"),
   ("Funerary Equipment", .s "Q79497835"),
   ("Furniture and woodwork", .s "Q60734095"),
   ("Garment", .s "Q11460"),
   ("Glass", .s "Q13180610"),
   ("Glyptic", .d "P2079" "Q929254"),
   ("Illumination", .s "Q8362"),
   ("Implements", .s "Q39546"),
   ("Inlays", .d "P2079" "Q1281067"),
   ("Ivory", .d "P186" "Q82001"),
   ("Jade", .s "Q60733799"),
   ("Jewelry", .s "Q161439"),
   ("Knitting", .s "Q29048022"),
   ("Lace", .s "Q231250"),
   ("Lacquer", .s "Q368972"),
   ("Lamp", .s "Q368972"),
   ("Leather", .s "Q79504355"),
   ("Linoleum Block", .s "Q22060043"),
   ("Lithographic Stone", .s ""),
   ("Manuscript", .s "Q87167"),
   ("Metalwork", .s "Q29382731"),
   ("Miniature", .s "Q282129"),
   ("Miscellaneous", .s ""),
   ("Mixed Media", .d "P136" "Q1902763"),
   ("Monotype", .s "Q22669635"),
   ("Mosaic", .s "Q133067"),
   ("Musical Instrument", .s "Q34379"),
   ("Netsuke", .s "Q543901"),
   ("Painting", .s "Q3305213"),
   ("Photograph", .s "Q125191"),
   ("Plaque", .s "Q4364339"),
   ("Plate", .s "Q57216"),
   ("Portfolio", .s "Q79509036"),
   ("Portrait Miniature", .s "Q282129"),
   ("Print", .s "Q11060274"),
   ("Relief", .s "Q11060274"),
   ("Rock crystal", .d "P186" "Q2050687"),
   ("Sampler", .s "Q1513987"),
   ("Scarabs", .s "Q2442735"),
   ("Sculpture", .s "Q860861"),
   ("Seals", .s "Q2474386"),
   ("Silver", .d "P186" "Q1090"),
   ("Spindle Whorl", .s "Q2474386"),
   ("Stone", .d "P186" "Q22731"),
   ("Tapestry", .s "Q184296"),
   ("Textile", .s "Q28823"),
   ("Time-based Media", .d "P136" "Q57206278"),
   ("Tool", .s "Q39546"),
   ("Velvet", .d "P186" "Q243519"),
   ("Vessels", .s "Q987767"),
   ("Wood", .d "P186" "Q287"),
   ("Woodblock", .s "Q28913685")]

/-- Python `entities['type'][t]`: `none` models the uncaught `KeyError`
raised at line 370 for a `type` string not in the table. -/
def typeTableLookup (t : String) : Option TypeEntry :=
  List.lookup t entitiesType

/-- The cleaned title of line 242:
`artwork['title'].rstrip().lstrip().replace('\n', ' ').replace('\r', ' ')`. -/
def cleanTitle (a : ArtworkRecord) : PyStr :=
  pyReplaceChar '\r' ' ' (pyReplaceChar '\n' ' ' (pyStrip a.title))

/-- The author-concatenation loop of lines 276-278: for each creator with a
truthy description, append `' ' + description.replace('\n', ' ') + ';'`. -/
def authorConcat : List Creator → PyStr
  | [] => []
  | c :: rest =>
    (if creatorTruthy c then
       (' ' :: pyReplaceChar '\n' ' ' (c.description.getD [])) ++ [';']
     else []) ++ authorConcat rest

/-- `author_target` of lines 273-281: the concatenation above with its final
character sliced off (`[:-1]`) and then left-stripped, falling back to
`'unknown artist'` for an empty creators list or an empty result. -/
def authorTarget (cs : List Creator) : PyStr :=
  let a0 : PyStr :=
    if cs.length > 0 then pyLStrip ((authorConcat cs).dropLast)
    else "unknown artist".data
  if a0.length = 0 then "unknown artist".data else a0

/-- The label of lines 386-389: the cleaned title, truncated to 250
characters when longer. -/
def buildLabel (a : ArtworkRecord) : PyStr :=
  let t := cleanTitle a
  if t.length > 250 then t.take 250 else t

/-- The description of lines 391-396:
`'(' + accession_number + ') ' + artwork['type'].lower() + ' by ' + author_target`,
truncated to 250 characters when longer. -/
def buildDescription (a : ArtworkRecord) (acc : PyStr) : PyStr :=
  let s := "(".data ++ acc ++ ") ".data ++ pyLower a.type_.data
             ++ " by ".data ++ authorTarget a.creators
  if s.length > 250 then s.take 250 else s

/-- The fixed-format English description submitted with the create-entity
call (line 400):
`"artwork in the Cleveland Museum of Art's collection (%s)" % accession_number`. -/
def createDescString (acc : PyStr) : PyStr :=
  "artwork in the Cleveland Museum of Art's collection (".data ++ acc ++ ")".data

/-- Python truthiness of a nullable year integer (line 267). -/
def optIntTruthy : Option Int → Bool
  | none => false
  | some n => n != 0

/-- The `commons_prop` claim (P4765) after the builder ran: its qualifiers
were attached at lines 202-207 and its targets set at lines 376-384 only when
`share_license_status == 'CC0'` and `artwork.get('images')` is truthy.
`none` means `setTarget` was never called on it; a `.vnone` mainsnak value
means `images['print']['url']` was `null`. -/
def buildCommons (a : ArtworkRecord) : Option Claim :=
  if a.share_license_status = "CC0" then
    match a.images with
    | some imgs =>
      some { mainsnak := ⟨"P4765", match imgs.printUrl with
                                   | some u => .vstr u
                                   | none => .vnone⟩
             qualifiers := [⟨"P2093", .vstr (authorTarget a.creators)⟩,
                            ⟨"P1476", .mono (cleanTitle a) "en"⟩,
                            ⟨"P2701", .qitem "Q2195"⟩,
                            ⟨"P275", .qitem "Q6938433"⟩,
                            ⟨"P137", .qitem "Q657415"⟩,
                            ⟨"P2699", .vstr a.url⟩]
             sources := [] }
    | none => none
  else none

/-- The five claims appended unconditionally: institution (line 218),
accession number qualified by institution (line 227), instance-of
(line 245), title (line 249) and reference url (line 252). -/
def basePairs (a : ArtworkRecord) (acc : PyStr) : List (Snak × List Snak) :=
  [(⟨"P195", .qitem "Q657415"⟩, []),
   (⟨"P217", .vstr acc⟩, [⟨"P195", .qitem "Q657415"⟩]),
   (⟨"P31", .qitem "Q18593264"⟩, []),
   (⟨"P1476", .mono (cleanTitle a) "en"⟩, []),
   (⟨"P973", .vstr a.url⟩, [])]

/-- The conditional inception claim of lines 266-270: only when the earliest
and latest creation dates are equal (`==` on nullable years) and the
earliest is truthy. -/
def createdPairs (a : ArtworkRecord) : List (Snak × List Snak) :=
  if a.creation_date_earliest = a.creation_date_latest then
    (if optIntTruthy a.creation_date_earliest then
       [(⟨"P571", .timeYear (a.creation_date_earliest.getD 0)⟩, [])]
     else [])
  else []

/-- The conditional copyright claim of lines 283-297, with its determination
qualifier. -/
def copyrightPairs (a : ArtworkRecord) : List (Snak × List Snak) :=
  if a.share_license_status = "Copyrighted" ∨ a.share_license_status = "CC0" then
    [(⟨"P6216", .qitem (if a.share_license_status = "CC0"
                        then "Q19652" else "Q50423863")⟩,
      [⟨"P459", .qitem "Q61848113"⟩])]
  else []

/-- The conditional object-type claim of lines 370-374: only when the table
value is a plain non-empty string (`isinstance(..., str)` plus the `!= ''`
check).  The `none` case never reaches this list: the builder has already
raised `KeyError` (line 370) before any claim could be appended. -/
def typePairs (a : ArtworkRecord) : List (Snak × List Snak) :=
  match typeTableLookup a.type_ with
  | some (.s v) => if v ≠ "" then [(⟨"P31", .qitem v⟩, [])] else []
  | some (.d _ _) => []
  | none => []

/-- The (mainsnak, qualifiers) pairs of the `claims` list, in append order
(lines 218, 227, 245, 249, 252, 270, 297, 374).  Every one of these claims
additionally carries the two uniform sources attached at lines 189-201;
those are added by `mkClaim` below. -/
def buildPairs (a : ArtworkRecord) (acc : PyStr) : List (Snak × List Snak) :=
  basePairs a acc ++ createdPairs a ++ copyrightPairs a ++ typePairs a

/-- Attach the uniform reference sources (`P854` retrieval url, `P813`
retrieval date, lines 170-172 and 189-201) to a (mainsnak, qualifiers) pair. -/
def mkClaim (today : DateYMD) (url : PyStr) (p : Snak × List Snak) : Claim :=
  { mainsnak := p.1, qualifiers := p.2,
    sources := [⟨"P854", .vstr url⟩, ⟨"P813", .dateYMD today⟩] }

/-- The two ways the statement-building phase aborts. -/
inductive BuildErr where
  /-- `artwork['accession_number']` raised `KeyError` (line 230). -/
  | keyErrorAccession
  /-- `entities['type'][artwork['type']]` raised an uncaught `KeyError`
  (line 370). -/
  | keyErrorType
deriving DecidableEq

/-- Everything the statement-building phase (lines 220-401) produces. -/
structure BuildOutput where
  accession : PyStr
  claims : List Claim
  commons : Option Claim
  label : PyStr
  description : PyStr
deriving DecidableEq

/-- The statement-building phase of `_sync_wikidata_artwork`, lines 220-401,
as a function of the record and the retrieval date.  It aborts on a missing
`accession_number` key (caught at line 230) and on a `type` string absent
from the `entities['type']` table (uncaught `KeyError` at line 370). -/
def buildArtwork (today : DateYMD) (a : ArtworkRecord) : Except BuildErr BuildOutput :=
  match a.accession_number with
  | none => .error .keyErrorAccession
  | some acc =>
    match typeTableLookup a.type_ with
    | none => .error .keyErrorType
    | some _ =>
      .ok { accession := acc
            claims := (buildPairs a acc).map (mkClaim today a.url)
            commons := buildCommons a
            label := buildLabel a
            description := buildDescription a acc }

/-- The state of an existing remote Wikidata item as the reconciler sees it
through `item.get()`: its English label and description (absent ⇒ the
`KeyError`/`.get('en')` fallback paths of lines 454-457 and 464-467) and its
claims.  The source groups claims per property id; the grouping carries no
information for the logic here, so a flat list is kept. -/
structure RemoteItem where
  labelEn : Option PyStr
  descriptionEn : Option PyStr
  claims : List Claim
deriving DecidableEq

/-- The mainsnak signatures of an item's claims. -/
def snaksOf (item : RemoteItem) : List Snak := item.claims.map Claim.mainsnak

/-- The property ids with at least one claim on the item
(`item.get()['claims'].keys()`, lines 479-480). -/
def propsOf (item : RemoteItem) : List String :=
  item.claims.map fun c => c.mainsnak.property

/-- A write call issued to the remote service. -/
inductive Write where
  /-- `item.editEntity(newitem, ...)` (line 421) with its label, its
  fixed-format English description and the full claim list. -/
  | createEntity (label : PyStr) (description : PyStr) (claims : List Claim)
  /-- `item.addClaim(...)` (lines 424, 482, 493). -/
  | addClaim (c : Claim)
  /-- `item.editLabels(...)` (lines 451, 456). -/
  | editLabel (l : PyStr)
  /-- `item.editDescriptions(...)` (lines 461, 466). -/
  | editDescription (d : PyStr)
deriving DecidableEq

/-- Log messages accumulated in `output`, abstracted to tags. -/
inductive Msg where
  /-- `"Uploaded: ..."` (line 425). -/
  | uploaded
  /-- `"Failed to upload: ..."` plus the null-image explanation
  (lines 430-432, the `AttributeError` handler). -/
  | failedUploadAttrErr
  /-- `"Failed to upload: ..."` (line 436, the `OtherPageSaveError`
  handler). -/
  | failedUploadSaveErr
  /-- `"syncing: ..."` (line 445). -/
  | syncing
deriving DecidableEq

/-- The overall result of one `_sync_wikidata_artwork` call. -/
inductive SyncOutcome where
  /-- The uncaught `TypeError` raised by `output += e` at line 232, where
  `output` is a `str` and `e` the caught `KeyError` instance; the intended
  `return output` at line 233 is never reached. -/
  | crashTypeError
  /-- The uncaught `KeyError` propagating from line 370. -/
  | crashKeyError
  /-- `return None` at line 413 (unparsable query response). -/
  | retNone
  /-- `return output, item_return` at line 497. -/
  | ret (output : List Msg) (item : Option PyStr)
deriving DecidableEq

/-- The parsed body of the SPARQL lookup (line 407): either not valid JSON,
or a `results.bindings` list of matching Qids. -/
inductive LookupResponse where
  /-- `json.loads` raised (line 411). -/
  | parseError
  /-- The list of `Qid` binding values. -/
  | bindings (qids : List PyStr)
deriving DecidableEq

/-- External-world behaviour the sync cannot determine from its input: the
identifier the repository assigns to a freshly created entity (`str(item)`
after line 421), and whether `editEntity` succeeds (its
`OtherPageSaveError` is caught at line 435). -/
structure Env where
  newQid : PyStr
  createOk : Bool
deriving DecidableEq

/-- Whether `item.addClaim(commons_prop)` succeeds: it fails client-side
with `AttributeError` when the claim's target is null (see the module
docstring note), and a claim whose `setTarget` never ran fails the same
way. -/
def commonsGood (c : Claim) : Bool :=
  match c.mainsnak.value with
  | .vstr _ => true
  | _ => false

/-- `commonsGood` lifted to the optional `commons_prop` of a build output. -/
def commonsOk (co : Option Claim) : Bool :=
  match co with
  | some c => commonsGood c
  | none => false

/-- The deduplicated claim-signature list `clms` of lines 470-475: first
occurrences of each mainsnak, in order. -/
def dedupSnaks : List Snak → List Snak → List Snak
  | [], acc => acc
  | s :: rest, acc =>
    if s ∈ acc then dedupSnaks rest acc else dedupSnaks rest (acc ++ [s])

/-- The label synchronization of lines 449-457.  The `try` compares an
existing English label; the bare `except` catches the `KeyError` of an
absent one and then also edits.  Net effect: edit exactly when the stored
label differs from the computed one (including when absent). -/
def reconLabel (b : BuildOutput) (item : RemoteItem) : List Write × RemoteItem :=
  if item.labelEn = some b.label then ([], item)
  else ([Write.editLabel b.label], { item with labelEn := some b.label })

/-- The description synchronization of lines 459-468, same shape as
`reconLabel`. -/
def reconDescr (b : BuildOutput) (item : RemoteItem) : List Write × RemoteItem :=
  if item.descriptionEn = some b.description then ([], item)
  else ([Write.editDescription b.description],
        { item with descriptionEn := some b.description })

/-- The Commons-claim synchronization of lines 477-487: only when the record
is CC0 with truthy images and the item has neither a `P18` nor a `P4765`
claim, attempt `addClaim(commons_prop)`; an `AttributeError` (bad target) is
caught and only logged. -/
def reconCommons (a : ArtworkRecord) (co : Option Claim) (item : RemoteItem) :
    List Write × RemoteItem :=
  if a.share_license_status = "CC0" ∧ a.images.isSome = true ∧
     "P18" ∉ propsOf item ∧ "P4765" ∉ propsOf item then
    match co with
    | some c =>
      if commonsGood c then
        ([Write.addClaim c], { item with claims := item.claims ++ [c] })
      else ([], item)
    | none => ([], item)
  else ([], item)

/-- The statement loop of lines 489-495: add each built claim whose mainsnak
signature is not among `clms`.  `clms` is fixed before the loop (line 470)
and not updated by the additions. -/
def syncMissing (clms : List Snak) : List Claim → RemoteItem → List Write × RemoteItem
  | [], item => ([], item)
  | st :: rest, item =>
    if st.mainsnak ∈ clms then syncMissing clms rest item
    else
      let r := syncMissing clms rest { item with claims := item.claims ++ [st] }
      (Write.addClaim st :: r.1, r.2)

/-- The whole `ONE_MATCH` branch body (lines 443-495): label sync,
description sync, signature collection, conditional Commons claim, then the
additive statement sync.  Returns the writes issued and the item state they
produce. -/
def reconcile (a : ArtworkRecord) (b : BuildOutput) (item : RemoteItem) :
    List Write × RemoteItem :=
  let s1 := reconLabel b item
  let s2 := reconDescr b s1.2
  let clms := dedupSnaks (snaksOf s2.2) []
  let s3 := reconCommons a b.commons s2.2
  let s4 := syncMissing clms b.claims s3.2
  (s1.1 ++ s2.1 ++ s3.1 ++ s4.1, s4.2)

/-- `_sync_wikidata_artwork` end to end for one record: build the statements,
interpret the lookup response, then create (`len == 0`), reconcile
(`len == 1`) or fall through (two or more matches, which the source leaves
unhandled: it returns the untouched `output` and a null item).  `fetched` is
the current state of the remote item named by a one-match lookup. -/
def syncArtwork (today : DateYMD) (a : ArtworkRecord) (resp : LookupResponse)
    (env : Env) (fetched : RemoteItem) : SyncOutcome × List Write :=
  match buildArtwork today a with
  | .error .keyErrorAccession => (.crashTypeError, [])
  | .error .keyErrorType => (.crashKeyError, [])
  | .ok b =>
    match resp with
    | .parseError => (.retNone, [])
    | .bindings qids =>
      if qids.length = 0 then
        if env.createOk then
          let ce := Write.createEntity b.label (createDescString b.accession) b.claims
          match b.commons with
          | some c =>
            if commonsGood c then
              (.ret [Msg.uploaded] (some env.newQid), [ce, Write.addClaim c])
            else (.ret [Msg.failedUploadAttrErr] none, [ce])
          | none => (.ret [Msg.failedUploadAttrErr] none, [ce])
        else (.ret [Msg.failedUploadSaveErr] none, [])
      else if qids.length = 1 then
        let r := reconcile a b fetched
        (.ret [Msg.syncing] (some (qids.headD [])), r.1)
      else (.ret [] none, [])

/-- Decidable equality on build results, for concrete evaluation. -/
instance : DecidableEq (Except BuildErr BuildOutput) := fun x y =>
  match x, y with
  | .ok a, .ok b =>
    if h : a = b then .isTrue (by rw [h]) else .isFalse (by simp [h])
  | .error a, .error b =>
    if h : a = b then .isTrue (by rw [h]) else .isFalse (by simp [h])
  | .ok _, .error _ => .isFalse (by simp)
  | .error _, .ok _ => .isFalse (by simp)

/-! Concrete fixtures used by witnesses and counterexamples. -/

/-- A retrieval date for concrete runs. -/
def dateA : DateYMD := ⟨2020, 1, 2⟩

/-- A second, different retrieval date. -/
def dateB : DateYMD := ⟨2021, 3, 4⟩

/-- The scenario record of spec §8: accession `1916.1`, title
`Relief of a Woman`, type `Relief`, license CC0, images present, no
creators. -/
def artA : ArtworkRecord :=
  { accession_number := some "1916.1".data
    title := "Relief of a Woman".data
    url := "https://clevelandart.org/art/1916.1".data
    creation_date_earliest := some 1916
    creation_date_latest := some 1916
    creators := []
    share_license_status := "CC0"
    type_ := "Relief"
    images := some ⟨some "https://img/print.jpg".data⟩ }

/-- An empty remote item. -/
def itemA : RemoteItem := ⟨none, none, []⟩

/-- A benign environment: creation succeeds and yields `Q999`. -/
def envA : Env := ⟨"Q999".data, true⟩

/-- The build output of `artA` at `dateA` (a total projection; `artA`
builds successfully). -/
def buildA : BuildOutput :=
  (buildArtwork dateA artA).toOption.getD ⟨[], [], none, [], []⟩

/-- The build output of `artA` at the second date `dateB`. -/
def buildB : BuildOutput :=
  (buildArtwork dateB artA).toOption.getD ⟨[], [], none, [], []⟩

/-- `artA` with the `accession_number` key removed. -/
def artNoAcc : ArtworkRecord := { artA with accession_number := none }

/-- `artA` with a `type` string that is not a key of the lookup table. -/
def artBadType : ArtworkRecord := { artA with type_ := "Cuneiform" }

/-- `artA` with a newline inside the title. -/
def artNlTitle : ArtworkRecord := { artA with title := "A\nB".data }

/-- `artA` with images present but a null `images.print.url`. -/
def artNullImg : ArtworkRecord := { artA with images := some ⟨none⟩ }

/-- `artA` with both creation dates equal to the year `0`. -/
def artYearZero : ArtworkRecord :=
  { artA with creation_date_earliest := some 0, creation_date_latest := some 0 }

/-- A single creator whose description carries surrounding whitespace. -/
def creatorsPad : List Creator := [⟨some " a ".data⟩]

/-- The label of a successful build, as an optional value. -/
def builtLabel (today : DateYMD) (a : ArtworkRecord) : Option PyStr :=
  (buildArtwork today a).toOption.map BuildOutput.label

/-- The number of `P571` (inception) claims of a successful build. -/
def builtP571Count (today : DateYMD) (a : ArtworkRecord) : Option Nat :=
  (buildArtwork today a).toOption.map fun b =>
    (b.claims.map Claim.mainsnak).countP fun s => s.property == "P571"

/-- The number of claims carrying property `p` in a build output, counted on
mainsnak signatures. -/
def propCount (p : String) (b : BuildOutput) : Nat :=
  (b.claims.map Claim.mainsnak).countP fun s => s.property == p

/-- The truthy creator descriptions, each with newlines replaced by spaces —
the strings the loop of lines 276-278 actually splices together. -/
def authorParts (cs : List Creator) : List PyStr :=
  cs.filterMap fun c =>
    if creatorTruthy c then some (pyReplaceChar '\n' ' ' (c.description.getD []))
    else none

/-- Join a list of strings with a separator. -/
def joinSep (sep : PyStr) : List PyStr → PyStr
  | [] => []
  | [d] => d
  | d :: e :: rest => d ++ sep ++ joinSep sep (e :: rest)

/-- The author-string rule exactly as the spec words it, for comparison with
the code's `authorTarget`: concatenate each creator's non-empty description,
separated by `"; "`, trimmed of surrounding whitespace, with the literal
`"unknown artist"` fallback. -/
def authorTargetSpec (cs : List Creator) : PyStr :=
  let parts := cs.filterMap fun c =>
    if creatorTruthy c then some (c.description.getD []) else none
  if parts.isEmpty then "unknown artist".data
  else pyStrip (joinSep "; ".data parts)

/-- The amended author-string rule: newline-replaced non-empty descriptions
joined with `"; "`, then only left-stripped (trailing whitespace of the last
description survives), with the `"unknown artist"` fallback. -/
def authorTargetAmended (cs : List Creator) : PyStr :=
  let j := pyLStrip (joinSep "; ".data (authorParts cs))
  if j.length = 0 then "unknown artist".data else j

/-! Helper lemmas about the builder. -/

theorem build_ok_fields (today : DateYMD) (a : ArtworkRecord) (b : BuildOutput)
    (h : buildArtwork today a = .ok b) :
    a.accession_number = some b.accession ∧
    b.claims = (buildPairs a b.accession).map (mkClaim today a.url) ∧
    b.commons = buildCommons a ∧
    b.label = buildLabel a ∧
    b.description = buildDescription a b.accession := by
  cases hacc : a.accession_number with
  | none => simp [buildArtwork, hacc] at h
  | some acc =>
    cases htyp : typeTableLookup a.type_ with
    | none => simp [buildArtwork, hacc, htyp] at h
    | some e =>
      simp only [buildArtwork, hacc, htyp, Except.ok.injEq] at h
      subst h
      exact ⟨rfl, rfl, rfl, rfl, rfl⟩

theorem build_ok_type (today : DateYMD) (a : ArtworkRecord) (b : BuildOutput)
    (h : buildArtwork today a = .ok b) :
    ∃ e, typeTableLookup a.type_ = some e := by
  cases hacc : a.accession_number with
  | none => simp [buildArtwork, hacc] at h
  | some acc =>
    cases htyp : typeTableLookup a.type_ with
    | none => simp [buildArtwork, hacc, htyp] at h
    | some e => exact ⟨e, rfl⟩

theorem build_claims_snaks (today : DateYMD) (a : ArtworkRecord) (b : BuildOutput)
    (h : buildArtwork today a = .ok b) :
    b.claims.map Claim.mainsnak = (buildPairs a b.accession).map Prod.fst := by
  obtain ⟨-, hc, -, -, -⟩ := build_ok_fields today a b h
  rw [hc, List.map_map]
  exact List.map_congr_left fun p _ => rfl

theorem buildCommons_property (a : ArtworkRecord) (c : Claim)
    (h : buildCommons a = some c) : c.mainsnak.property = "P4765" := by
  unfold buildCommons at h
  split at h
  · cases himg : a.images with
    | none => rw [himg] at h; simp at h
    | some imgs =>
      rw [himg] at h
      simp only [Option.some.injEq] at h
      rw [← h]
  · simp at h

/-! Helper lemmas about the reconciler. -/

theorem mem_dedupSnaks (s : Snak) (l acc : List Snak) :
    s ∈ dedupSnaks l acc ↔ s ∈ l ∨ s ∈ acc := by
  induction l generalizing acc with
  | nil => simp [dedupSnaks]
  | cons x rest ih =>
    simp only [dedupSnaks]
    split
    · rw [ih]
      constructor
      · rintro (h | h)
        · exact Or.inl (List.mem_cons_of_mem _ h)
        · exact Or.inr h
      · rintro (h | h)
        · rcases List.mem_cons.mp h with rfl | h
          · exact Or.inr (by assumption)
          · exact Or.inl h
        · exact Or.inr h
    · rw [ih]
      simp only [List.mem_cons, List.mem_append, List.mem_singleton]
      tauto

theorem syncMissing_claims (clms : List Snak) (sts : List Claim) (item : RemoteItem) :
    ∃ ex, (syncMissing clms sts item).2.claims = item.claims ++ ex := by
  induction sts generalizing item with
  | nil => exact ⟨[], by simp [syncMissing]⟩
  | cons st rest ih =>
    simp only [syncMissing]
    split
    · exact ih item
    · obtain ⟨ex, hex⟩ := ih { item with claims := item.claims ++ [st] }
      exact ⟨[st] ++ ex, by simpa [List.append_assoc] using hex⟩

theorem syncMissing_texts (clms : List Snak) (sts : List Claim) (item : RemoteItem) :
    (syncMissing clms sts item).2.labelEn = item.labelEn ∧
    (syncMissing clms sts item).2.descriptionEn = item.descriptionEn := by
  induction sts generalizing item with
  | nil => simp [syncMissing]
  | cons st rest ih =>
    simp only [syncMissing]
    split
    · exact ih item
    · exact ih { item with claims := item.claims ++ [st] }

theorem syncMissing_covers (clms : List Snak) (sts : List Claim) (item : RemoteItem)
    (hc : ∀ s ∈ clms, s ∈ snaksOf item) :
    ∀ st ∈ sts, st.mainsnak ∈ snaksOf (syncMissing clms sts item).2 := by
  induction sts generalizing item with
  | nil => intro st h; cases h
  | cons st0 rest ih =>
    intro st hst
    simp only [syncMissing]
    split
    · rcases List.mem_cons.mp hst with rfl | h
      · obtain ⟨ex, hex⟩ := syncMissing_claims clms rest item
        have hmem : st.mainsnak ∈ snaksOf item := hc _ (by assumption)
        unfold snaksOf at hmem ⊢
        rw [hex, List.map_append]
        exact List.mem_append_left _ hmem
      · exact ih item hc st h
    · have hc' : ∀ s ∈ clms, s ∈ snaksOf { item with claims := item.claims ++ [st0] } := by
        intro s hs
        have := hc s hs
        unfold snaksOf at this ⊢
        simp only [List.map_append]
        exact List.mem_append_left _ this
      rcases List.mem_cons.mp hst with rfl | h
      · obtain ⟨ex, hex⟩ :=
          syncMissing_claims clms rest { item with claims := item.claims ++ [st] }
        unfold snaksOf
        rw [hex, List.map_append]
        apply List.mem_append_left
        simp
      · exact ih _ hc' st h

theorem syncMissing_nil (clms : List Snak) (sts : List Claim) (item : RemoteItem)
    (h : ∀ st ∈ sts, st.mainsnak ∈ clms) :
    syncMissing clms sts item = ([], item) := by
  induction sts with
  | nil => rfl
  | cons st rest ih =>
    simp only [syncMissing]
    rw [if_pos (h st (List.mem_cons_self _ _))]
    exact ih fun st' h' => h st' (List.mem_cons_of_mem _ h')

theorem syncMissing_writes (clms : List Snak) (sts : List Claim) (item : RemoteItem) :
    ∀ w ∈ (syncMissing clms sts item).1, ∃ c, w = Write.addClaim c := by
  induction sts generalizing item with
  | nil => intro w h; cases h
  | cons st rest ih =>
    intro w hw
    simp only [syncMissing] at hw
    split at hw
    · exact ih item w hw
    · rcases List.mem_cons.mp hw with rfl | h
      · exact ⟨st, rfl⟩
      · exact ih _ w h

theorem reconLabel_post (b : BuildOutput) (item : RemoteItem) :
    (reconLabel b item).2.labelEn = some b.label ∧
    (reconLabel b item).2.descriptionEn = item.descriptionEn ∧
    (reconLabel b item).2.claims = item.claims := by
  unfold reconLabel
  split
  · exact ⟨by assumption, rfl, rfl⟩
  · exact ⟨rfl, rfl, rfl⟩

theorem reconDescr_post (b : BuildOutput) (item : RemoteItem) :
    (reconDescr b item).2.descriptionEn = some b.description ∧
    (reconDescr b item).2.labelEn = item.labelEn ∧
    (reconDescr b item).2.claims = item.claims := by
  unfold reconDescr
  split
  · exact ⟨by assumption, rfl, rfl⟩
  · exact ⟨rfl, rfl, rfl⟩

theorem reconLabel_noop (b : BuildOutput) (item : RemoteItem)
    (h : item.labelEn = some b.label) : reconLabel b item = ([], item) := by
  unfold reconLabel
  rw [if_pos h]

theorem reconDescr_noop (b : BuildOutput) (item : RemoteItem)
    (h : item.descriptionEn = some b.description) : reconDescr b item = ([], item) := by
  unfold reconDescr
  rw [if_pos h]

theorem reconLabel_writes (b : BuildOutput) (item : RemoteItem) :
    ∀ w ∈ (reconLabel b item).1, w = Write.editLabel b.label := by
  unfold reconLabel
  split <;> simp

theorem reconDescr_writes (b : BuildOutput) (item : RemoteItem) :
    (reconDescr b item).1 =
      if item.descriptionEn = some b.description then []
      else [Write.editDescription b.description] := by
  unfold reconDescr
  split <;> simp_all

theorem reconCommons_claims (a : ArtworkRecord) (co : Option Claim) (item : RemoteItem) :
    ∃ ex, (reconCommons a co item).2.claims = item.claims ++ ex := by
  by_cases hcond : a.share_license_status = "CC0" ∧ a.images.isSome = true ∧
      "P18" ∉ propsOf item ∧ "P4765" ∉ propsOf item
  · cases co with
    | none => exact ⟨[], by simp [reconCommons, hcond]⟩
    | some c =>
      by_cases hg : commonsGood c = true
      · exact ⟨[c], by simp [reconCommons, hcond, hg]⟩
      · exact ⟨[], by simp [reconCommons, hcond, hg]⟩
  · exact ⟨[], by simp [reconCommons, hcond]⟩

theorem reconCommons_texts (a : ArtworkRecord) (co : Option Claim) (item : RemoteItem) :
    (reconCommons a co item).2.labelEn = item.labelEn ∧
    (reconCommons a co item).2.descriptionEn = item.descriptionEn := by
  by_cases hcond : a.share_license_status = "CC0" ∧ a.images.isSome = true ∧
      "P18" ∉ propsOf item ∧ "P4765" ∉ propsOf item
  · cases co with
    | none => simp [reconCommons, hcond]
    | some c =>
      by_cases hg : commonsGood c = true
      · simp [reconCommons, hcond, hg]
      · simp [reconCommons, hcond, hg]
  · simp [reconCommons, hcond]

theorem reconCommons_skip (a : ArtworkRecord) (co : Option Claim) (item : RemoteItem)
    (h : commonsOk co = false) : reconCommons a co item = ([], item) := by
  by_cases hcond : a.share_license_status = "CC0" ∧ a.images.isSome = true ∧
      "P18" ∉ propsOf item ∧ "P4765" ∉ propsOf item
  · cases co with
    | none => simp [reconCommons, hcond]
    | some c =>
      simp only [commonsOk] at h
      simp [reconCommons, hcond, h]
  · simp [reconCommons, hcond]

theorem reconCommons_notCond (a : ArtworkRecord) (co : Option Claim) (item : RemoteItem)
    (h : ¬(a.share_license_status = "CC0" ∧ a.images.isSome = true ∧
           "P18" ∉ propsOf item ∧ "P4765" ∉ propsOf item)) :
    reconCommons a co item = ([], item) := by
  simp [reconCommons, h]

theorem reconCommons_good (a : ArtworkRecord) (c : Claim) (item : RemoteItem)
    (hg : commonsGood c = true)
    (h : a.share_license_status = "CC0" ∧ a.images.isSome = true ∧
         "P18" ∉ propsOf item ∧ "P4765" ∉ propsOf item) :
    reconCommons a (some c) item =
      ([Write.addClaim c], { item with claims := item.claims ++ [c] }) := by
  simp [reconCommons, h, hg]

theorem reconCommons_writes (a : ArtworkRecord) (co : Option Claim) (item : RemoteItem) :
    ∀ w ∈ (reconCommons a co item).1, ∃ c, w = Write.addClaim c := by
  by_cases hcond : a.share_license_status = "CC0" ∧ a.images.isSome = true ∧
      "P18" ∉ propsOf item ∧ "P4765" ∉ propsOf item
  · cases co with
    | none => simp [reconCommons, hcond]
    | some c =>
      by_cases hg : commonsGood c = true
      · simp [reconCommons, hcond, hg]
      · simp [reconCommons, hcond, hg]
  · simp [reconCommons, hcond]

theorem reconcile_post (a : ArtworkRecord) (b : BuildOutput) (item : RemoteItem) :
    (reconcile a b item).2.labelEn = some b.label ∧
    (reconcile a b item).2.descriptionEn = some b.description ∧
    (∃ ex, (reconcile a b item).2.claims = item.claims ++ ex) := by
  obtain ⟨l1, l2, l3⟩ := reconLabel_post b item
  obtain ⟨d1, d2, d3⟩ := reconDescr_post b (reconLabel b item).2
  obtain ⟨c1, c2⟩ := reconCommons_texts a b.commons (reconDescr b (reconLabel b item).2).2
  obtain ⟨ex1, hex1⟩ := reconCommons_claims a b.commons (reconDescr b (reconLabel b item).2).2
  obtain ⟨s1, s2⟩ := syncMissing_texts
    (dedupSnaks (snaksOf (reconDescr b (reconLabel b item).2).2) []) b.claims
    (reconCommons a b.commons (reconDescr b (reconLabel b item).2).2).2
  obtain ⟨ex2, hex2⟩ := syncMissing_claims
    (dedupSnaks (snaksOf (reconDescr b (reconLabel b item).2).2) []) b.claims
    (reconCommons a b.commons (reconDescr b (reconLabel b item).2).2).2
  refine ⟨?_, ?_, ⟨ex1 ++ ex2, ?_⟩⟩
  · show (syncMissing _ b.claims _).2.labelEn = some b.label
    rw [s1, c1, d2, l1]
  · show (syncMissing _ b.claims _).2.descriptionEn = some b.description
    rw [s2, c2, d1]
  · show (syncMissing _ b.claims _).2.claims = item.claims ++ (ex1 ++ ex2)
    rw [hex2, hex1, d3, l3, List.append_assoc]

theorem reconcile_covers (a : ArtworkRecord) (b : BuildOutput) (item : RemoteItem) :
    ∀ st ∈ b.claims, st.mainsnak ∈ snaksOf (reconcile a b item).2 := by
  intro st hst
  obtain ⟨l1, l2, l3⟩ := reconLabel_post b item
  obtain ⟨d1, d2, d3⟩ := reconDescr_post b (reconLabel b item).2
  obtain ⟨ex1, hex1⟩ := reconCommons_claims a b.commons (reconDescr b (reconLabel b item).2).2
  show st.mainsnak ∈ snaksOf (syncMissing
    (dedupSnaks (snaksOf (reconDescr b (reconLabel b item).2).2) []) b.claims
    (reconCommons a b.commons (reconDescr b (reconLabel b item).2).2).2).2
  apply syncMissing_covers _ b.claims _ _ st hst
  intro s hs
  rw [mem_dedupSnaks] at hs
  rcases hs with hs | hs
  · unfold snaksOf at hs ⊢
    rw [hex1, List.map_append]
    exact List.mem_append_left _ hs
  · cases hs

theorem reconcile_commons_done (a : ArtworkRecord) (b : BuildOutput) (item : RemoteItem)
    (hbc : b.commons = buildCommons a)
    (hcond : a.share_license_status = "CC0" ∧ a.images.isSome = true ∧
             "P18" ∉ propsOf (reconcile a b item).2 ∧
             "P4765" ∉ propsOf (reconcile a b item).2) :
    commonsOk b.commons = false := by
  by_contra hok
  rw [Bool.not_eq_false] at hok
  obtain ⟨c, hc, hg⟩ : ∃ c, b.commons = some c ∧ commonsGood c = true := by
    cases hbco : b.commons with
    | none => rw [hbco] at hok; simp [commonsOk] at hok
    | some c =>
      rw [hbco] at hok
      exact ⟨c, rfl, by simpa [commonsOk] using hok⟩
  have hprop : c.mainsnak.property = "P4765" :=
    buildCommons_property a c (hbc ▸ hc)
  obtain ⟨l1, l2, l3⟩ := reconLabel_post b item
  obtain ⟨d1, d2, d3⟩ := reconDescr_post b (reconLabel b item).2
  -- the state the commons step ran on, during this same reconcile call
  set mid := (reconDescr b (reconLabel b item).2).2 with hmid
  have hmidclaims : mid.claims = item.claims := by rw [hmid, d3, l3]
  obtain ⟨ex2, hex2⟩ := syncMissing_claims
    (dedupSnaks (snaksOf mid) []) b.claims (reconCommons a b.commons mid).2
  have hfinal : (reconcile a b item).2.claims = (reconCommons a b.commons mid).2.claims ++ ex2 := hex2
  -- the commons condition held at the commons step
  have hmcond : a.share_license_status = "CC0" ∧ a.images.isSome = true ∧
      "P18" ∉ propsOf mid ∧ "P4765" ∉ propsOf mid := by
    refine ⟨hcond.1, hcond.2.1, ?_, ?_⟩
    · intro hmem
      apply hcond.2.2.1
      obtain ⟨ex1, hex1⟩ := reconCommons_claims a b.commons mid
      unfold propsOf at hmem ⊢
      rw [hfinal, hex1, List.map_append, List.map_append]
      exact List.mem_append_left _ (List.mem_append_left _ hmem)
    · intro hmem
      apply hcond.2.2.2
      obtain ⟨ex1, hex1⟩ := reconCommons_claims a b.commons mid
      unfold propsOf at hmem ⊢
      rw [hfinal, hex1, List.map_append, List.map_append]
      exact List.mem_append_left _ (List.mem_append_left _ hmem)
  -- so the commons claim was added, and `P4765` is on the final item
  have hadd := reconCommons_good a c mid hg hmcond
  apply hcond.2.2.2
  unfold propsOf
  rw [hfinal, List.map_append]
  apply List.mem_append_left
  rw [hc, hadd]
  simp [hprop]

/-- C1: running the `ONE_MATCH` reconciliation (lines 443-495) twice against
the same artwork record and the item state left behind by the first run
issues zero write calls on the second run, and the first run is strictly
additive on the item's claims (the prior claim list survives as a prefix).
The two runs may rebuild the statements on different retrieval dates: the
date only enters the claims' sources, which the property+value signature
comparison ignores. -/
theorem c1_reconcile_idempotent (d1 d2 : DateYMD) (a : ArtworkRecord)
    (b1 b2 : BuildOutput) (item : RemoteItem)
    (h1 : buildArtwork d1 a = .ok b1) (h2 : buildArtwork d2 a = .ok b2) :
    (reconcile a b2 (reconcile a b1 item).2).1 = [] ∧
    (reconcile a b1 item).2.claims.take item.claims.length = item.claims := by
  obtain ⟨hacc1, hclaims1, hcomm1, hlab1, hdesc1⟩ := build_ok_fields d1 a b1 h1
  obtain ⟨hacc2, hclaims2, hcomm2, hlab2, hdesc2⟩ := build_ok_fields d2 a b2 h2
  have haccE : b2.accession = b1.accession := by
    rw [hacc1] at hacc2
    exact (Option.some.inj hacc2).symm
  have hlabE : b2.label = b1.label := by rw [hlab1, hlab2]
  have hdescE : b2.description = b1.description := by rw [hdesc1, hdesc2, haccE]
  have hcommE : b2.commons = b1.commons := by rw [hcomm1, hcomm2]
  have hsnakE : b2.claims.map Claim.mainsnak = b1.claims.map Claim.mainsnak := by
    rw [build_claims_snaks d1 a b1 h1, build_claims_snaks d2 a b2 h2, haccE]
  obtain ⟨f_lab, f_desc, f_app⟩ := reconcile_post a b1 item
  have f_cover := reconcile_covers a b1 item
  constructor
  · have e1 : reconLabel b2 (reconcile a b1 item).2 = ([], (reconcile a b1 item).2) :=
      reconLabel_noop _ _ (by rw [f_lab, hlabE])
    have e2 : reconDescr b2 (reconcile a b1 item).2 = ([], (reconcile a b1 item).2) :=
      reconDescr_noop _ _ (by rw [f_desc, hdescE])
    have e3 : reconCommons a b2.commons (reconcile a b1 item).2 =
        ([], (reconcile a b1 item).2) := by
      rw [hcommE]
      by_cases hcond : a.share_license_status = "CC0" ∧ a.images.isSome = true ∧
          "P18" ∉ propsOf (reconcile a b1 item).2 ∧
          "P4765" ∉ propsOf (reconcile a b1 item).2
      · exact reconCommons_skip _ _ _ (reconcile_commons_done a b1 item hcomm1 hcond)
      · exact reconCommons_notCond _ _ _ hcond
    have e4 : syncMissing (dedupSnaks (snaksOf (reconcile a b1 item).2) []) b2.claims
        (reconcile a b1 item).2 = ([], (reconcile a b1 item).2) := by
      apply syncMissing_nil
      intro st hst
      rw [mem_dedupSnaks]
      left
      have hmem : st.mainsnak ∈ b2.claims.map Claim.mainsnak :=
        List.mem_map_of_mem _ hst
      rw [hsnakE] at hmem
      obtain ⟨st', hst', hmk⟩ := List.mem_map.mp hmem
      rw [← hmk]
      exact f_cover st' hst'
    show (reconLabel b2 (reconcile a b1 item).2).1 ++
         (reconDescr b2 (reconLabel b2 (reconcile a b1 item).2).2).1 ++
         (reconCommons a b2.commons
            (reconDescr b2 (reconLabel b2 (reconcile a b1 item).2).2).2).1 ++
         (syncMissing
            (dedupSnaks (snaksOf
               (reconDescr b2 (reconLabel b2 (reconcile a b1 item).2).2).2) [])
            b2.claims
            (reconCommons a b2.commons
               (reconDescr b2 (reconLabel b2 (reconcile a b1 item).2).2).2).2).1
         = []
    rw [e1]
    dsimp only
    rw [e2]
    dsimp only
    rw [e3]
    dsimp only
    rw [e4]
    simp
  · obtain ⟨ex, hex⟩ := f_app
    rw [hex]
    exact List.take_left _ _

/-- Witness for C1: the scenario record, an empty remote item and two
different retrieval dates. -/
theorem c1_witness :
    (reconcile artA buildB (reconcile artA buildA itemA).2).1 = [] ∧
    (reconcile artA buildA itemA).2.claims.take itemA.claims.length = itemA.claims :=
  c1_reconcile_idempotent dateA dateB artA buildA buildB itemA (by decide) (by decide)

/-- C2: for a record whose `accession_number` key is absent, the sync issues
zero write calls — but it does not return an error-message result: the
handler's `output += e` (line 232) concatenates a `str` with the caught
`KeyError` instance, which raises an uncaught `TypeError` before the
intended `return output` (line 233) can run, so the method aborts by
exception instead. -/
theorem c2_missing_accession (today : DateYMD) (a : ArtworkRecord)
    (resp : LookupResponse) (env : Env) (fetched : RemoteItem)
    (h : a.accession_number = none) :
    syncArtwork today a resp env fetched = (.crashTypeError, []) := by
  simp [syncArtwork, buildArtwork, h]

/-- Witness for C2: the scenario record with its accession key removed. -/
theorem c2_witness :
    artNoAcc.accession_number = none ∧
    syncArtwork dateA artNoAcc .parseError envA itemA = (.crashTypeError, []) :=
  ⟨by decide, c2_missing_accession dateA artNoAcc .parseError envA itemA (by decide)⟩

/-- C6: when the lookup query's response body is not valid JSON
(`json.loads` raises, line 411), the sync for the record returns the null
result `None` (line 413) and issues no write call. -/
theorem c6_parse_failure (today : DateYMD) (a : ArtworkRecord) (b : BuildOutput)
    (env : Env) (fetched : RemoteItem) (hb : buildArtwork today a = .ok b) :
    syncArtwork today a .parseError env fetched = (.retNone, []) := by
  simp [syncArtwork, hb]

/-- Witness for C6: the scenario record with an unparsable lookup response. -/
theorem c6_witness :
    syncArtwork dateA artA .parseError envA itemA = (.retNone, []) :=
  c6_parse_failure dateA artA buildA envA itemA (by decide)

/-- C7 counterexample: a CC0 record with images present but a null
`images.print.url`, zero lookup matches, and a successful create-entity
call.  The follow-up Commons claim write fails with `AttributeError`, the
failure message is recorded, the sync returns normally — but with a NULL
item identifier, because `item_return = str(item)` (line 428) only runs on
the success path of the inner `try`.  The claim's promise of a non-null
identifier in this situation is false. -/
theorem c7_counterexample :
    envA.createOk = true ∧
    (syncArtwork dateA artNullImg (.bindings []) envA itemA).1 =
      SyncOutcome.ret [Msg.failedUploadAttrErr] none := by
  exact ⟨rfl, by decide⟩

/-- C7 (amended): on zero lookup matches with a successful create-entity
call, the create branch runs (the create write is issued) and the sync
returns normally; the returned identifier is non-null exactly when the
follow-up Commons-media claim write also succeeds, and when that write
fails the soft failure message is recorded, the failure is not fatal
(normal return, no exception), but the identifier is null. -/
theorem c7_create_branch (today : DateYMD) (a : ArtworkRecord) (b : BuildOutput)
    (env : Env) (fetched : RemoteItem)
    (hb : buildArtwork today a = .ok b) (hc : env.createOk = true) :
    (Write.createEntity b.label (createDescString b.accession) b.claims ∈
       (syncArtwork today a (.bindings []) env fetched).2) ∧
    ((syncArtwork today a (.bindings []) env fetched).1 =
       if commonsOk b.commons = true then
         SyncOutcome.ret [Msg.uploaded] (some env.newQid)
       else SyncOutcome.ret [Msg.failedUploadAttrErr] none) := by
  cases hco : b.commons with
  | none => simp [syncArtwork, hb, hc, hco, commonsOk]
  | some c =>
    by_cases hg : commonsGood c = true
    · simp [syncArtwork, hb, hc, hco, commonsOk, hg]
    · simp [syncArtwork, hb, hc, hco, commonsOk, hg]

/-- Witness for C7 (amended): the scenario record (whose Commons write
succeeds) under a successful create. -/
theorem c7_witness :
    (Write.createEntity buildA.label (createDescString buildA.accession) buildA.claims ∈
       (syncArtwork dateA artA (.bindings []) envA itemA).2) ∧
    ((syncArtwork dateA artA (.bindings []) envA itemA).1 =
       if commonsOk buildA.commons = true then
         SyncOutcome.ret [Msg.uploaded] (some envA.newQid)
       else SyncOutcome.ret [Msg.failedUploadAttrErr] none) :=
  c7_create_branch dateA artA buildA envA itemA (by decide) rfl

/-- C4: the Commons-media claim (P4765) is part of the builder's output,
with its author-string, title, format, license, operator and image-url
qualifiers, whenever the record is CC0 with a non-null `images.print.url`;
for a `Copyrighted` record the builder never produces it.  (The source keeps
`commons_prop` outside the `claims` list — it is attached through a separate
`addClaim` call — so the build output carries it in a dedicated field.) -/
theorem c4_commons_claim (today : DateYMD) (a : ArtworkRecord) (b : BuildOutput)
    (hb : buildArtwork today a = .ok b) :
    (∀ imgs u, a.share_license_status = "CC0" → a.images = some imgs →
       imgs.printUrl = some u →
       b.commons = some { mainsnak := ⟨"P4765", .vstr u⟩
                          qualifiers := [⟨"P2093", .vstr (authorTarget a.creators)⟩,
                                         ⟨"P1476", .mono (cleanTitle a) "en"⟩,
                                         ⟨"P2701", .qitem "Q2195"⟩,
                                         ⟨"P275", .qitem "Q6938433"⟩,
                                         ⟨"P137", .qitem "Q657415"⟩,
                                         ⟨"P2699", .vstr a.url⟩]
                          sources := [] }) ∧
    (a.share_license_status = "Copyrighted" → b.commons = none) := by
  obtain ⟨-, -, hcomm, -, -⟩ := build_ok_fields today a b hb
  constructor
  · intro imgs u hlic himg hurl
    rw [hcomm]
    simp [buildCommons, hlic, himg, hurl]
  · intro hlic
    rw [hcomm]
    simp +decide [buildCommons, hlic]

/-- Witness for C4: the scenario record (CC0, print url present). -/
theorem c4_witness :
    (∀ imgs u, artA.share_license_status = "CC0" → artA.images = some imgs →
       imgs.printUrl = some u →
       buildA.commons = some { mainsnak := ⟨"P4765", .vstr u⟩
                               qualifiers := [⟨"P2093", .vstr (authorTarget artA.creators)⟩,
                                              ⟨"P1476", .mono (cleanTitle artA) "en"⟩,
                                              ⟨"P2701", .qitem "Q2195"⟩,
                                              ⟨"P275", .qitem "Q6938433"⟩,
                                              ⟨"P137", .qitem "Q657415"⟩,
                                              ⟨"P2699", .vstr artA.url⟩]
                               sources := [] }) ∧
    (artA.share_license_status = "Copyrighted" → buildA.commons = none) :=
  c4_commons_claim dateA artA buildA (by decide)

/-- C5 counterexample: a record whose title contains a newline.  The label
the builder produces is the cleaned title (`"A B"`), not the raw title
truncated to 250 characters (`"A\nB"`), so the claim's label equation fails
as stated. -/
theorem c5_counterexample :
    builtLabel dateA artNlTitle = some "A B".data ∧
    "A B".data ≠ artNlTitle.title.take 250 := by decide

/-- C5 (amended): the builder's label equals the record's title stripped of
surrounding whitespace and with newline/carriage-return characters replaced
by spaces, truncated to at most 250 characters; the description equals
`"(<accession_number>) <type, lowercased> by <author-string>"` truncated to
at most 250 characters; and in particular, for accession `1916.1`, type
`Relief` and no creators, the description is
`"(1916.1) relief by unknown artist"`. -/
theorem c5_label_description (today : DateYMD) (a : ArtworkRecord) (b : BuildOutput)
    (hb : buildArtwork today a = .ok b) :
    b.label = (cleanTitle a).take 250 ∧
    b.description = ("(".data ++ b.accession ++ ") ".data ++ pyLower a.type_.data
                     ++ " by ".data ++ authorTarget a.creators).take 250 ∧
    buildDescription artA "1916.1".data = "(1916.1) relief by unknown artist".data := by
  obtain ⟨-, -, -, hlab, hdesc⟩ := build_ok_fields today a b hb
  refine ⟨?_, ?_, by decide⟩
  · rw [hlab]
    show (if (cleanTitle a).length > 250 then (cleanTitle a).take 250
          else cleanTitle a) = (cleanTitle a).take 250
    by_cases hl : (cleanTitle a).length > 250
    · rw [if_pos hl]
    · rw [if_neg hl]
      exact (List.take_of_length_le (Nat.le_of_not_lt hl)).symm
  · rw [hdesc]
    show (if ("(".data ++ b.accession ++ ") ".data ++ pyLower a.type_.data
              ++ " by ".data ++ authorTarget a.creators).length > 250
          then ("(".data ++ b.accession ++ ") ".data ++ pyLower a.type_.data
              ++ " by ".data ++ authorTarget a.creators).take 250
          else ("(".data ++ b.accession ++ ") ".data ++ pyLower a.type_.data
              ++ " by ".data ++ authorTarget a.creators)) = _
    by_cases hl : ("(".data ++ b.accession ++ ") ".data ++ pyLower a.type_.data
                   ++ " by ".data ++ authorTarget a.creators).length > 250
    · rw [if_pos hl]
    · rw [if_neg hl]
      exact (List.take_of_length_le (Nat.le_of_not_lt hl)).symm

/-- Witness for C5 (amended): the scenario record. -/
theorem c5_witness :
    buildA.label = (cleanTitle artA).take 250 ∧
    buildA.description = ("(".data ++ buildA.accession ++ ") ".data
                          ++ pyLower artA.type_.data
                          ++ " by ".data ++ authorTarget artA.creators).take 250 ∧
    buildDescription artA "1916.1".data = "(1916.1) relief by unknown artist".data :=
  c5_label_description dateA artA buildA (by decide)

/-! Per-segment claim counts, used by C3 and C8. -/

theorem base_count_P571 (a : ArtworkRecord) (acc : PyStr) :
    ((basePairs a acc).map Prod.fst).countP (fun s => s.property == "P571") = 0 := by
  simp +decide [basePairs, List.countP_cons]

theorem created_count_P571 (a : ArtworkRecord) :
    ((createdPairs a).map Prod.fst).countP (fun s => s.property == "P571") =
      if a.creation_date_earliest = a.creation_date_latest ∧
         optIntTruthy a.creation_date_earliest = true then 1 else 0 := by
  unfold createdPairs
  by_cases he : a.creation_date_earliest = a.creation_date_latest
  · rw [if_pos he]
    by_cases ht : optIntTruthy a.creation_date_earliest = true
    · rw [if_pos ht, if_pos ⟨he, ht⟩]
      simp +decide [List.countP_cons]
    · rw [if_neg ht, if_neg (by tauto)]
      simp
  · rw [if_neg he, if_neg (by tauto)]
    simp

theorem copyright_count_P571 (a : ArtworkRecord) :
    ((copyrightPairs a).map Prod.fst).countP (fun s => s.property == "P571") = 0 := by
  by_cases hl : a.share_license_status = "Copyrighted" ∨ a.share_license_status = "CC0"
  · simp +decide [copyrightPairs, hl, List.countP_cons]
  · simp [copyrightPairs, hl]

theorem type_count_P571 (a : ArtworkRecord) :
    ((typePairs a).map Prod.fst).countP (fun s => s.property == "P571") = 0 := by
  unfold typePairs
  cases htyp : typeTableLookup a.type_ with
  | none => simp
  | some e =>
    cases e with
    | s v =>
      by_cases hv : v ≠ ""
      · simp +decide [hv, List.countP_cons]
      · simp [hv]
    | d p q => simp

theorem base_count_P31 (a : ArtworkRecord) (acc : PyStr) :
    ((basePairs a acc).map Prod.fst).countP (fun s => s.property == "P31") = 1 := by
  simp +decide [basePairs, List.countP_cons]

theorem created_count_P31 (a : ArtworkRecord) :
    ((createdPairs a).map Prod.fst).countP (fun s => s.property == "P31") = 0 := by
  unfold createdPairs
  by_cases he : a.creation_date_earliest = a.creation_date_latest
  · rw [if_pos he]
    by_cases ht : optIntTruthy a.creation_date_earliest = true
    · rw [if_pos ht]
      simp +decide [List.countP_cons]
    · rw [if_neg ht]
      simp
  · rw [if_neg he]
    simp

theorem copyright_count_P31 (a : ArtworkRecord) :
    ((copyrightPairs a).map Prod.fst).countP (fun s => s.property == "P31") = 0 := by
  by_cases hl : a.share_license_status = "Copyrighted" ∨ a.share_license_status = "CC0"
  · simp +decide [copyrightPairs, hl, List.countP_cons]
  · simp [copyrightPairs, hl]

/-- C8 counterexample: a record whose earliest and latest creation dates are
both the year `0` — equal and non-null, yet the builder emits zero inception
claims, because the emission guard is Python truthiness
(`if artwork['creation_date_earliest']:`, line 267) and the integer `0` is
falsy. -/
theorem c8_counterexample :
    artYearZero.creation_date_earliest = artYearZero.creation_date_latest ∧
    artYearZero.creation_date_earliest ≠ none ∧
    builtP571Count dateA artYearZero = some 0 := by decide

/-- C8 (amended): a successful build emits exactly one inception (`P571`)
claim when the two creation dates are equal and the earliest is truthy
(non-null and non-zero), and zero such claims otherwise. -/
theorem c8_inception_count (today : DateYMD) (a : ArtworkRecord) (b : BuildOutput)
    (hb : buildArtwork today a = .ok b) :
    propCount "P571" b =
      if a.creation_date_earliest = a.creation_date_latest ∧
         optIntTruthy a.creation_date_earliest = true then 1 else 0 := by
  unfold propCount
  rw [build_claims_snaks today a b hb]
  unfold buildPairs
  simp only [List.map_append, List.countP_append]
  rw [base_count_P571, created_count_P571, copyright_count_P571, type_count_P571]
  omega

/-- Witness for C8 (amended): the scenario record, whose equal non-zero
dates yield exactly one inception claim. -/
theorem c8_witness :
    propCount "P571" buildA =
      if artA.creation_date_earliest = artA.creation_date_latest ∧
         optIntTruthy artA.creation_date_earliest = true then 1 else 0 :=
  c8_inception_count dateA artA buildA (by decide)

/-- C3 counterexample: a record whose `type` string (`"Cuneiform"`) is not a
key of the lookup table.  The claim says the object-type claim is silently
skipped and the builder completes without error; instead
`entities['type'][artwork['type']]` (line 370) raises an uncaught
`KeyError`, the build fails, and the whole sync crashes before any lookup
or write. -/
theorem c3_counterexample :
    typeTableLookup artBadType.type_ = none ∧
    buildArtwork dateA artBadType = .error .keyErrorType ∧
    syncArtwork dateA artBadType .parseError envA itemA = (.crashKeyError, []) := by
  decide

/-- C3 (amended): for a record whose accession key is present, the builder
raises an uncaught `KeyError` when the `type` string is absent from the
lookup table; when the `type` string is present it completes without error,
and it emits the object-type claim (a second `P31` claim beside the fixed
instance-of claim) exactly when the table value is a plain non-empty string
— a value that is the empty string or a nested dict is silently skipped. -/
theorem c3_type_claim (today : DateYMD) (a : ArtworkRecord) (acc : PyStr)
    (ha : a.accession_number = some acc) :
    (typeTableLookup a.type_ = none → buildArtwork today a = .error .keyErrorType) ∧
    (∀ e, typeTableLookup a.type_ = some e → ∃ b, buildArtwork today a = .ok b) ∧
    (∀ v b, typeTableLookup a.type_ = some (.s v) → v ≠ "" →
       buildArtwork today a = .ok b →
       (⟨"P31", .qitem v⟩ : Snak) ∈ b.claims.map Claim.mainsnak ∧
       propCount "P31" b = 2) ∧
    (∀ b, typeTableLookup a.type_ = some (.s "") → buildArtwork today a = .ok b →
       propCount "P31" b = 1) ∧
    (∀ p q b, typeTableLookup a.type_ = some (.d p q) → buildArtwork today a = .ok b →
       propCount "P31" b = 1) := by
  refine ⟨?_, ?_, ?_, ?_, ?_⟩
  · intro h
    simp [buildArtwork, ha, h]
  · intro e he
    exact ⟨{ accession := acc
             claims := (buildPairs a acc).map (mkClaim today a.url)
             commons := buildCommons a
             label := buildLabel a
             description := buildDescription a acc },
           by simp [buildArtwork, ha, he]⟩
  · intro v b hv hvne hb
    constructor
    · rw [build_claims_snaks today a b hb]
      unfold buildPairs typePairs
      simp only [hv, hvne, if_true, List.map_append, List.mem_append]
      simp [hvne]
    · unfold propCount
      rw [build_claims_snaks today a b hb]
      unfold buildPairs
      simp only [List.map_append, List.countP_append]
      rw [base_count_P31, created_count_P31, copyright_count_P31]
      unfold typePairs
      simp only [hv]
      rw [if_pos hvne]
      simp +decide [List.countP_cons]
  · intro b h0 hb
    unfold propCount
    rw [build_claims_snaks today a b hb]
    unfold buildPairs
    simp only [List.map_append, List.countP_append]
    rw [base_count_P31, created_count_P31, copyright_count_P31]
    unfold typePairs
    simp only [h0]
    simp
  · intro p q b h0 hb
    unfold propCount
    rw [build_claims_snaks today a b hb]
    unfold buildPairs
    simp only [List.map_append, List.countP_append]
    rw [base_count_P31, created_count_P31, copyright_count_P31]
    unfold typePairs
    simp only [h0]
    simp

/-- Witness for C3 (amended): the scenario record, whose type `Relief` maps
to the non-empty string `Q11060274`. -/
theorem c3_witness :
    (typeTableLookup artA.type_ = none →
       buildArtwork dateA artA = .error .keyErrorType) ∧
    (∀ e, typeTableLookup artA.type_ = some e →
       ∃ b, buildArtwork dateA artA = .ok b) ∧
    (∀ v b, typeTableLookup artA.type_ = some (.s v) → v ≠ "" →
       buildArtwork dateA artA = .ok b →
       (⟨"P31", .qitem v⟩ : Snak) ∈ b.claims.map Claim.mainsnak ∧
       propCount "P31" b = 2) ∧
    (∀ b, typeTableLookup artA.type_ = some (.s "") →
       buildArtwork dateA artA = .ok b → propCount "P31" b = 1) ∧
    (∀ p q b, typeTableLookup artA.type_ = some (.d p q) →
       buildArtwork dateA artA = .ok b → propCount "P31" b = 1) :=
  c3_type_claim dateA artA "1916.1".data (by decide)

/-- The author-concatenation loop, rewritten as a join: a leading space,
the newline-replaced truthy descriptions joined with `"; "`, and a trailing
semicolon. -/
theorem authorConcat_eq (cs : List Creator) :
    authorConcat cs =
      match authorParts cs with
      | [] => []
      | p :: ps => (' ' :: joinSep "; ".data (p :: ps)) ++ [';'] := by
  induction cs with
  | nil => rfl
  | cons c rest ih =>
    by_cases ht : creatorTruthy c = true
    · simp only [authorConcat, authorParts, List.filterMap_cons, ht, if_pos]
      rw [show authorParts rest =
            rest.filterMap (fun c => if creatorTruthy c then
              some (pyReplaceChar '\n' ' ' (c.description.getD [])) else none) from rfl] at ih
      cases hp : rest.filterMap (fun c => if creatorTruthy c then
          some (pyReplaceChar '\n' ' ' (c.description.getD [])) else none) with
      | nil =>
        rw [hp] at ih
        simp only [ih, joinSep]
        simp
      | cons p ps =>
        rw [hp] at ih
        simp only [ih, joinSep]
        simp [List.append_assoc]
    · simp only [authorConcat, authorParts, List.filterMap_cons, ht] at ih ⊢
      simpa using ih

/-- C9 counterexample: a single creator whose description is `" a "`.  The
spec's rule (join non-empty descriptions with `"; "`, trim surrounding
whitespace) yields `"a"`, but the code only left-strips after slicing off
the final semicolon, so it yields `"a "` — the trailing space survives. -/
theorem c9_counterexample :
    authorTarget creatorsPad = "a ".data ∧
    authorTargetSpec creatorsPad = "a".data ∧
    authorTarget creatorsPad ≠ authorTargetSpec creatorsPad := by decide

/-- C9 (amended): the author string equals the creators' truthy
descriptions, each with newlines replaced by spaces, joined with `"; "` and
then left-stripped only (trailing whitespace from the last description is
kept), with the literal `"unknown artist"` fallback when the result is
empty. -/
theorem c9_author_string (cs : List Creator) :
    authorTarget cs = authorTargetAmended cs := by
  cases cs with
  | nil => rfl
  | cons c rest =>
    have key : pyLStrip ((authorConcat (c :: rest)).dropLast)
             = pyLStrip (joinSep "; ".data (authorParts (c :: rest))) := by
      rw [authorConcat_eq]
      cases hp : authorParts (c :: rest) with
      | nil => rfl
      | cons p ps =>
        dsimp only
        have hdl : ((' ' :: joinSep [';', ' '] (p :: ps)) ++ [';']).dropLast
                 = ' ' :: joinSep [';', ' '] (p :: ps) := by
          rw [List.dropLast_concat]
        rw [hdl]
        rfl
    simp only [authorTarget, authorTargetAmended]
    rw [if_pos (by simp : (c :: rest).length > 0), key]

theorem head?_take_pos (x : Char) (l : PyStr) (n : Nat) (h : 0 < n) :
    ((x :: l).take n).head? = some x := by
  cases n with
  | zero => exact absurd h (by omega)
  | succ m => rfl

/-- The computed description always starts with the opening parenthesis. -/
theorem buildDescription_head (a : ArtworkRecord) (acc : PyStr) :
    (buildDescription a acc).head? = some '(' := by
  show (if ("(".data ++ acc ++ ") ".data ++ pyLower a.type_.data
            ++ " by ".data ++ authorTarget a.creators).length > 250
        then ("(".data ++ acc ++ ") ".data ++ pyLower a.type_.data
            ++ " by ".data ++ authorTarget a.creators).take 250
        else ("(".data ++ acc ++ ") ".data ++ pyLower a.type_.data
            ++ " by ".data ++ authorTarget a.creators)).head? = some '('
  split
  · exact head?_take_pos '(' _ 250 (by norm_num)
  · rfl

/-- The fixed-format create description (first character `a`) never equals
the computed description (first character `(`). -/
theorem createDesc_ne_buildDesc (a : ArtworkRecord) (acc acc2 : PyStr) :
    createDescString acc ≠ buildDescription a acc2 := by
  intro h
  have h1 : (createDescString acc).head? = (buildDescription a acc2).head? := by rw [h]
  rw [buildDescription_head] at h1
  have h2 : (createDescString acc).head? = some 'a' := rfl
  rw [h2] at h1
  exact absurd h1 (by decide)

/-- A description edit appears among the reconciliation writes exactly when
the item's stored English description differs from the computed one, and
the edit always writes the computed description. -/
theorem reconcile_descr_writes (a : ArtworkRecord) (b : BuildOutput)
    (item : RemoteItem) (w : PyStr) :
    Write.editDescription w ∈ (reconcile a b item).1 ↔
      (item.descriptionEn ≠ some b.description ∧ w = b.description) := by
  have hld : (reconLabel b item).2.descriptionEn = item.descriptionEn :=
    (reconLabel_post b item).2.1
  show Write.editDescription w ∈
    (reconLabel b item).1 ++ (reconDescr b (reconLabel b item).2).1 ++
    (reconCommons a b.commons (reconDescr b (reconLabel b item).2).2).1 ++
    (syncMissing
       (dedupSnaks (snaksOf (reconDescr b (reconLabel b item).2).2) [])
       b.claims
       (reconCommons a b.commons (reconDescr b (reconLabel b item).2).2).2).1 ↔ _
  simp only [List.mem_append]
  constructor
  · rintro (((h | h) | h) | h)
    · have := reconLabel_writes b item _ h
      simp at this
    · rw [reconDescr_writes, hld] at h
      by_cases hd : item.descriptionEn = some b.description
      · rw [if_pos hd] at h
        cases h
      · rw [if_neg hd] at h
        rcases List.mem_singleton.mp h with h
        exact ⟨hd, (Write.editDescription.inj h)⟩
    · obtain ⟨c, hc⟩ := reconCommons_writes a b.commons _ _ h
      simp at hc
    · obtain ⟨c, hc⟩ := syncMissing_writes _ _ _ _ h
      simp at hc
  · rintro ⟨hne, rfl⟩
    left; left; right
    rw [reconDescr_writes, hld, if_neg hne]
    simp

/-- C10: the English description submitted with the create-entity call is
the fixed-format `"artwork in the Cleveland Museum of Art's collection
(<accession>)"` string (line 400), which always differs from the builder's
computed `"(<accession>) <type> by <author>"` description; the `ONE_MATCH`
branch compares and overwrites the remote item's English description
against the computed description (lines 459-468), never the fixed-format
one. -/
theorem c10_two_descriptions (today : DateYMD) (a : ArtworkRecord) (b : BuildOutput)
    (env : Env) (item : RemoteItem)
    (hb : buildArtwork today a = .ok b) (hc : env.createOk = true) :
    createDescString b.accession ≠ b.description ∧
    ((syncArtwork today a (.bindings []) env item).2.head? =
       some (Write.createEntity b.label (createDescString b.accession) b.claims)) ∧
    (∀ w, Write.editDescription w ∈ (reconcile a b item).1 ↔
       (item.descriptionEn ≠ some b.description ∧ w = b.description)) := by
  obtain ⟨-, -, -, -, hdesc⟩ := build_ok_fields today a b hb
  refine ⟨?_, ?_, fun w => reconcile_descr_writes a b item w⟩
  · rw [hdesc]
    exact createDesc_ne_buildDesc a b.accession b.accession
  · cases hco : b.commons with
    | none => simp [syncArtwork, hb, hc, hco]
    | some c =>
      by_cases hg : commonsGood c = true
      · simp [syncArtwork, hb, hc, hco, hg]
      · simp [syncArtwork, hb, hc, hco, hg]

/-- Witness for C10: the scenario record against an empty remote item. -/
theorem c10_witness :
    createDescString buildA.accession ≠ buildA.description ∧
    ((syncArtwork dateA artA (.bindings []) envA itemA).2.head? =
       some (Write.createEntity buildA.label (createDescString buildA.accession)
               buildA.claims)) ∧
    (∀ w, Write.editDescription w ∈ (reconcile artA buildA itemA).1 ↔
       (itemA.descriptionEn ≠ some buildA.description ∧ w = buildA.description)) :=
  c10_two_descriptions dateA artA buildA envA itemA (by decide) rfl

end OAW
